import Mathlib

/-!
Verification development for the comment-threading controller
`packages/plugin-ext/src/main/browser/comments/comments-contribution.ts`
(class `CommentsContribution`).

The controller's mutable fields become an explicit `ControllerState`; the
collaborating services (editor manager, range decorator, comment backend) are
an `Env` of pure oracles; calls into external services are recorded in log
fields of the state so that "invokes no backend call" is a provable statement.
All definitions are translated from the source file; the few pieces whose code
lives in sibling files that are not part of the provided sources (the zone
widget, the decorator, the comment service) are modelled from the
specification and marked as such in their doc comments.
-/

namespace TheiaComments

/-- Anchor range of a comment thread (`plugin-api-rpc-model`'s `Range` as used
at lines 311-316 of the source: start/end line and column). -/
structure Range where
  startLineNumber : Nat
  endLineNumber : Nat
  startColumn : Nat
  endColumn : Nat
deriving Repr, DecidableEq

/-- A comment thread as the controller consumes it: `threadId` (the empty
string is the not-yet-persisted placeholder), the target `resource`
(`thread.resource` may be absent, hence `Option`; the source guards with
`thread.resource && ...`), and the anchor `range`.  Resource identifiers are
kept as the strings the source compares with `toString()`. -/
structure CommentThread where
  threadId : String
  resource : Option String
  range : Range
deriving Repr, DecidableEq

/-- Per-owner snapshot `ICommentInfo`: the owner id and its list of threads
(the source reads `info.owner` and pushes onto `info.threads`). -/
structure CommentInfo where
  owner : String
  threads : List CommentThread
deriving Repr, DecidableEq

/-- Mouse event handed to `addOrToggleCommentAtLine`.  The translated
functions only ever test its presence (`if (e)`), so it carries no data. -/
inductive EditorMouseEvent
  | mk
deriving Repr, DecidableEq

/-- Modelled from the spec: `CommentThreadWidget` is defined in
`comment-thread-widget.ts`, which is not among the provided sources.  Per the
spec (sections 3 and 4.2) a widget handle records its `owner`, its
`commentThread`, the pending free-text it was pre-filled with, and the line it
is anchored at: `display({ afterLineNumber: thread.range.startLineNumber })`
anchors the widget at the thread's start line, and `getGlyphPosition()`
returns that anchor line. -/
structure CommentThreadWidget where
  owner : String
  commentThread : CommentThread
  pendingComment : Option String
  glyphPosition : Nat
deriving Repr, DecidableEq

/-- `getGlyphPosition()` of a widget handle: the line the widget is anchored
at (modelled from the spec, see `CommentThreadWidget`). -/
def CommentThreadWidget.getGlyphPosition (w : CommentThreadWidget) : Nat :=
  w.glyphPosition

/-- A candidate comment action returned by
`rangeDecorator.getMatchedCommentAction(lineNumber)`; the source only reads
its `ownerId` (line 295). -/
structure CommentInfoAction where
  ownerId : String
deriving Repr, DecidableEq

/-- The current editor as seen through `editorManager.currentEditor`:
absent, some non-diff editor, or a `MonacoDiffEditor` whose modified
sub-editor has an optional model (identified by its URI string). -/
inductive CurrentEditor
  | absent
  | nonDiff
  | diff (modifiedModel : Option String)
deriving Repr, DecidableEq

/-- The modified sub-editor returned by the `editor` getter, carrying the
optional model URI (`getModel()` then `.uri`, compared via `toString()`). -/
structure ModifiedEditor where
  model : Option String
deriving Repr, DecidableEq

/-- A `{owner, added, removed, changed}` batch from
`commentService.onDidUpdateCommentThreads`. -/
structure CommentThreadChangedEvent where
  owner : String
  added : List CommentThread
  removed : List CommentThread
  changed : List CommentThread
deriving Repr, DecidableEq

/-- The record of one `commentService.createCommentThreadTemplate` call
(owner id, resource URI, range) made by `addCommentAtLine2`. -/
structure CreatedTemplate where
  ownerId : String
  resource : String
  range : Range
deriving Repr, DecidableEq

/-- Ghost trace events instrumenting the insertion serializer: `enter l` is
recorded exactly when `_addInProgress` is set to `true` and the request for
line `l` begins processing; `exit` exactly when `processNextThreadToAdd`
clears the flag. -/
inductive SEvent
  | enter (lineNumber : Nat)
  | exit
deriving Repr, DecidableEq

/-- The mutable fields of `CommentsContribution` plus observability logs.
`disposedWidgets`, `updatedLog`, `createdTemplates`, `fetchLog` record the
calls made to external collaborators (`dispose()`, `update()`,
`createCommentThreadTemplate`, `getComments`); `serializerTrace` is the ghost
trace of the insertion serializer. -/
structure ControllerState where
  /-- `_addInProgress` (declared with a definite-assignment assertion and
  never initialised, hence `undefined`, which the guard `!this._addInProgress`
  treats as `false`). -/
  addInProgress : Bool
  /-- `_commentWidgets` -/
  commentWidgets : List CommentThreadWidget
  /-- `_commentInfos` -/
  commentInfos : List CommentInfo
  /-- `_pendingCommentCache`: owner, then threadId, to the uncommitted text. -/
  pendingCommentCache : List (String × List (String × String))
  /-- `_emptyThreadsToAddQueue` -/
  emptyThreadsToAddQueue : List (Nat × Option EditorMouseEvent)
  /-- `_computePromise` (declared at line 38; no statement in the source ever
  assigns it, so it can only ever hold its initial `undefined`). -/
  computePromise : Option Unit
  disposedWidgets : List CommentThreadWidget
  updatedLog : List CommentThreadWidget
  createdTemplates : List CreatedTemplate
  fetchLog : List String
  serializerTrace : List SEvent
deriving Repr, DecidableEq

/-- The constructor state (lines 48-50): empty collections, no fetch made,
`_addInProgress` effectively `false`, `_computePromise` unassigned. -/
def initialState : ControllerState :=
  { addInProgress := false
    commentWidgets := []
    commentInfos := []
    pendingCommentCache := []
    emptyThreadsToAddQueue := []
    computePromise := none
    disposedWidgets := []
    updatedLog := []
    createdTemplates := []
    fetchLog := []
    serializerTrace := [] }

/-- The controller's environment: the current editor, the decorator oracle
`getMatchedCommentAction`, and the resolved value the comment backend's
`getComments` fetch eventually delivers for a URI. -/
structure Env where
  currentEditor : CurrentEditor
  matchedCommentAction : Nat → List CommentInfoAction
  getComments : String → List (Option CommentInfo)

/-- `getCurrentEditor()` (line 250): `editorManager.currentEditor`, present
for any kind of editor. -/
def getCurrentEditor (env : Env) : Option CurrentEditor :=
  match env.currentEditor with
  | CurrentEditor.absent => none
  | ed => some ed

/-- The `editor` getter (lines 191-196): the diff editor's modified
sub-editor when the current editor is a `MonacoDiffEditor`, else
`undefined`. -/
def editor (env : Env) : Option ModifiedEditor :=
  match env.currentEditor with
  | CurrentEditor.diff m => some { model := m }
  | _ => none

/-- The idiom `this.editor && this.editor.getModel()` followed by `.uri`
(lines 78-79, 175-176, 308-309): the modified editor's model URI when both
exist. -/
def editorURI (env : Env) : Option String :=
  (editor env).bind fun ed => ed.model

/-- `setComments` (lines 183-189): a no-op without an editor, otherwise
replaces `_commentInfos` wholesale. -/
def setComments (env : Env) (s : ControllerState) (commentInfos : List CommentInfo) :
    ControllerState :=
  match editor env with
  | none => s
  | some _ => { s with commentInfos := commentInfos }

/-- `beginCompute` (lines 174-181): when an editor model URI exists, fetch
the comments for it (recorded in `fetchLog`) and hand the non-null ones to
`setComments`. -/
def beginCompute (env : Env) (s : ControllerState) : ControllerState :=
  match editorURI env with
  | none => s
  | some uri =>
      setComments env { s with fetchLog := s.fetchLog ++ [uri] }
        ((env.getComments uri).filterMap id)

/-- `displayCommentThread` (lines 198-213): with no editor do nothing;
otherwise create a zone widget for `(owner, thread)` pre-filled with
`pendingComment`, display it anchored at the thread's start line, and push it
onto `_commentWidgets`. -/
def displayCommentThread (env : Env) (s : ControllerState) (owner : String)
    (thread : CommentThread) (pendingComment : Option String) : ControllerState :=
  match editor env with
  | none => s
  | some _ =>
      { s with commentWidgets := s.commentWidgets ++
          [{ owner := owner, commentThread := thread, pendingComment := pendingComment,
             glyphPosition := thread.range.startLineNumber }] }

/-- The widget predicate used by the `changed` branch (lines 109-110) and by
the (owner, threadId) bookkeeping: `zoneWidget.owner === owner &&
zoneWidget.commentThread.threadId === threadId`. -/
def widgetMatches (owner threadId : String) (z : CommentThreadWidget) : Bool :=
  z.owner == owner && z.commentThread.threadId == threadId

/-- The widget predicate of the `removed` branch (lines 98-99), which
additionally refuses the empty placeholder id:
`... && zoneWidget.commentThread.threadId !== ''`. -/
def removeMatches (owner threadId : String) (z : CommentThreadWidget) : Bool :=
  z.owner == owner && z.commentThread.threadId == threadId &&
    !(z.commentThread.threadId == "")

/-- One iteration of `removed.forEach` (lines 97-106): find the widgets
matching the removed thread, and if any, splice out the first match and
dispose it. -/
def removeOne (owner : String) (s : ControllerState) (thread : CommentThread) :
    ControllerState :=
  match s.commentWidgets.filter (removeMatches owner thread.threadId) with
  | [] => s
  | matchedZone :: _ =>
      { s with
        commentWidgets := s.commentWidgets.eraseP (removeMatches owner thread.threadId)
        disposedWidgets := s.disposedWidgets ++ [matchedZone] }

/-- One iteration of `changed.forEach` (lines 108-115): ask the first
matching widget to `update()` (an external refresh, recorded in
`updatedLog`; controller state is otherwise untouched). -/
def changeOne (owner : String) (s : ControllerState) (thread : CommentThread) :
    ControllerState :=
  match s.commentWidgets.filter (widgetMatches owner thread.threadId) with
  | [] => s
  | matchedZone :: _ => { s with updatedLog := s.updatedLog ++ [matchedZone] }

/-- `this._commentInfos.filter(info => info.owner === owner)[0].threads.push(thread)`
(line 119): append `thread` to the first snapshot of `owner`.  (With no
matching snapshot the source would throw; the handler's guard at lines 88-91
makes that unreachable, and the model leaves the list unchanged there.) -/
def pushThreadToFirstOwner :
    List CommentInfo → String → CommentThread → List CommentInfo
  | [], _, _ => []
  | info :: rest, owner, t =>
      if info.owner == owner then
        { info with threads := info.threads ++ [t] } :: rest
      else
        info :: pushThreadToFirstOwner rest owner t

/-- One iteration of `added.forEach` (lines 116-120): look up the pending
free-text cached for `(owner, thread.threadId)`, display the thread, and
append it to the owner's first snapshot. -/
def addOne (env : Env) (owner : String) (s : ControllerState) (thread : CommentThread) :
    ControllerState :=
  let pendingCommentText :=
    (s.pendingCommentCache.lookup owner).bind fun m => m.lookup thread.threadId
  let s1 := displayCommentThread env s owner thread pendingCommentText
  { s1 with commentInfos := pushThreadToFirstOwner s1.commentInfos owner thread }

/-- `thread.resource && thread.resource.toString() === editorURI.toString()`
(lines 93-95). -/
def resourceMatches (thread : CommentThread) (uri : String) : Bool :=
  match thread.resource with
  | none => false
  | some r => r == uri

/-- The `onDidUpdateCommentThreads` handler (lines 77-121): bail out without
an editor URI; bail out when the owner has no cached snapshot; filter each
sub-list to the active resource; then apply removals, changes and additions
in that order.  (The `if (this._computePromise) await ...` guard at lines
84-86 is handled by the scheduler `deliverBatch` below; since
`_computePromise` is never assigned, the guard can never suspend.) -/
def onDidUpdateCommentThreads (env : Env) (s : ControllerState)
    (e : CommentThreadChangedEvent) : ControllerState :=
  match editorURI env with
  | none => s
  | some uri =>
      let commentInfo := s.commentInfos.filter fun info => info.owner == e.owner
      if commentInfo.length == 0 then s
      else
        let added := e.added.filter fun t => resourceMatches t uri
        let removed := e.removed.filter fun t => resourceMatches t uri
        let changed := e.changed.filter fun t => resourceMatches t uri
        let s1 := removed.foldl (removeOne e.owner) s
        let s2 := changed.foldl (changeOne e.owner) s1
        added.foldl (addOne env e.owner) s2

/-- The state update `this._addInProgress = true` performed at line 227,
with the ghost `enter` event recorded at that very point. -/
def markInProgress (s : ControllerState) (lineNumber : Nat) : ControllerState :=
  { s with addInProgress := true
           serializerTrace := s.serializerTrace ++ [SEvent.enter lineNumber] }

mutual

/-- `addOrToggleCommentAtLine` (lines 223-240): when no add is in progress,
mark one in progress (ghost `enter` recorded at that very point) and either
skip creation for an occupied line (draining the queue) or start the creation
workflow; otherwise queue the request.  `existingCommentsAtLine` is the
filter `widget.getGlyphPosition() === lineNumber` of line 229. -/
def addOrToggleCommentAtLine (env : Env) (s : ControllerState) (lineNumber : Nat)
    (e : Option EditorMouseEvent) : ControllerState :=
  if !s.addInProgress then
    if !(((markInProgress s lineNumber).commentWidgets.filter
        fun widget => widget.getGlyphPosition == lineNumber).isEmpty) then
      processNextThreadToAdd env (markInProgress s lineNumber)
    else
      addCommentAtLine env (markInProgress s lineNumber) lineNumber e
  else
    { s with emptyThreadsToAddQueue := s.emptyThreadsToAddQueue ++ [(lineNumber, e)] }
  termination_by 4 * s.emptyThreadsToAddQueue.length + 3
  decreasing_by all_goals (simp_all [markInProgress] <;> omega)

/-- `processNextThreadToAdd` (lines 242-248): clear the in-progress flag
(ghost `exit`), shift the oldest queued request, and re-invoke
`addOrToggleCommentAtLine` with it when there is one. -/
def processNextThreadToAdd (env : Env) (s : ControllerState) : ControllerState :=
  match h : s.emptyThreadsToAddQueue with
  | [] =>
      { s with addInProgress := false
               serializerTrace := s.serializerTrace ++ [SEvent.exit] }
  | info :: rest =>
      addOrToggleCommentAtLine env
        { s with addInProgress := false
                 serializerTrace := s.serializerTrace ++ [SEvent.exit]
                 emptyThreadsToAddQueue := rest } info.1 info.2
  termination_by 4 * s.emptyThreadsToAddQueue.length
  decreasing_by all_goals (simp_all <;> omega)

/-- `addCommentAtLine` (lines 254-300): with no current editor, or zero
candidate actions, or more than one candidate (both the with-event and the
without-event branch are commented out in the source), return without any
effect — in particular without releasing `_addInProgress`.  With exactly one
candidate, proceed to `addCommentAtLine2`. -/
def addCommentAtLine (env : Env) (s : ControllerState) (lineNumber : Nat)
    (e : Option EditorMouseEvent) : ControllerState :=
  let newCommentInfos := env.matchedCommentAction lineNumber
  match getCurrentEditor env with
  | none => s
  | some _ =>
      match newCommentInfos with
      | [] => s
      | [info] => addCommentAtLine2 env s lineNumber info.ownerId
      | _ :: _ :: _ => s
  termination_by 4 * s.emptyThreadsToAddQueue.length + 2
  decreasing_by all_goals (simp_all <;> omega)

/-- `addCommentAtLine2` (lines 302-319): with an editor model URI, call
`createCommentThreadTemplate` for a collapsed range at the line and release
the serializer; without one, return with the flag still held. -/
def addCommentAtLine2 (env : Env) (s : ControllerState) (lineNumber : Nat)
    (ownerId : String) : ControllerState :=
  match editorURI env with
  | none => s
  | some uri =>
      processNextThreadToAdd env
        { s with createdTemplates := s.createdTemplates ++
            [{ ownerId := ownerId, resource := uri
               range := { startLineNumber := lineNumber, endLineNumber := lineNumber
                          startColumn := 1, endColumn := 1 } }] }
  termination_by 4 * s.emptyThreadsToAddQueue.length + 1
  decreasing_by all_goals (simp_all <;> omega)

end

/-- A synchronous sequence of `addOrToggleCommentAtLine` calls. -/
def run (env : Env) (s : ControllerState)
    (reqs : List (Nat × Option EditorMouseEvent)) : ControllerState :=
  reqs.foldl (fun acc r => addOrToggleCommentAtLine env acc r.1 r.2) s


/-! Concrete fixtures shared by the example-based theorems. -/

/-- The active resource of the running example. -/
def exURI : String := "file:///a.ts"

/-- An environment with a diff editor open on `exURI`, a decorator that
yields no candidate comment action for any line, and a backend holding one
(empty) snapshot for owner `"o1"`. -/
def exEnv : Env :=
  { currentEditor := CurrentEditor.diff (some exURI)
    matchedCommentAction := fun _ => []
    getComments := fun _ => [some { owner := "o1", threads := [] }] }

/-! ### The insertion serializer never touches the reconciler's collections

`addOrToggleCommentAtLine` and the functions it reaches only read
`_commentWidgets` (for duplicate detection) and write the flag, the queue and
the template log; the widget list, snapshots, pending cache and disposal log
are framed.  Proved by induction on the queue length, which bounds the drain
recursion. -/

/-- The serializer frame: the fields `addOrToggleCommentAtLine` can never
change. -/
def SerFrame (s r : ControllerState) : Prop :=
  r.commentWidgets = s.commentWidgets ∧ r.commentInfos = s.commentInfos ∧
  r.pendingCommentCache = s.pendingCommentCache ∧
  r.disposedWidgets = s.disposedWidgets

lemma serFrame_rfl (s : ControllerState) : SerFrame s s :=
  ⟨rfl, rfl, rfl, rfl⟩

lemma serFrame_trans {s t r : ControllerState} (h1 : SerFrame s t)
    (h2 : SerFrame t r) : SerFrame s r := by
  obtain ⟨a1, b1, c1, d1⟩ := h1
  obtain ⟨a2, b2, c2, d2⟩ := h2
  exact ⟨a2.trans a1, b2.trans b1, c2.trans c1, d2.trans d1⟩

lemma serializer_frame_aux (n : Nat) :
    (∀ env s, s.emptyThreadsToAddQueue.length ≤ n →
      SerFrame s (processNextThreadToAdd env s)) ∧
    (∀ env s lineNumber ownerId, s.emptyThreadsToAddQueue.length ≤ n →
      SerFrame s (addCommentAtLine2 env s lineNumber ownerId)) ∧
    (∀ env s lineNumber e, s.emptyThreadsToAddQueue.length ≤ n →
      SerFrame s (addCommentAtLine env s lineNumber e)) ∧
    (∀ env s lineNumber e, s.emptyThreadsToAddQueue.length ≤ n →
      SerFrame s (addOrToggleCommentAtLine env s lineNumber e)) := by
  induction n with
  | zero =>
      have hp : ∀ env (s : ControllerState), s.emptyThreadsToAddQueue.length ≤ 0 →
          SerFrame s (processNextThreadToAdd env s) := by
        intro env s hlen
        rw [processNextThreadToAdd]
        split
        · exact ⟨rfl, rfl, rfl, rfl⟩
        · rename_i info rest h
          rw [h] at hlen
          simp at hlen
      have h2 : ∀ env (s : ControllerState) lineNumber ownerId,
          s.emptyThreadsToAddQueue.length ≤ 0 →
          SerFrame s (addCommentAtLine2 env s lineNumber ownerId) := by
        intro env s lineNumber ownerId hlen
        rw [addCommentAtLine2]
        split
        · exact serFrame_rfl s
        · exact hp env _ hlen
      have hl : ∀ env (s : ControllerState) lineNumber e,
          s.emptyThreadsToAddQueue.length ≤ 0 →
          SerFrame s (addCommentAtLine env s lineNumber e) := by
        intro env s lineNumber e hlen
        rw [addCommentAtLine]
        split
        · exact serFrame_rfl s
        · split
          · exact serFrame_rfl s
          · exact h2 env _ _ _ hlen
          · exact serFrame_rfl s
      refine ⟨hp, h2, hl, ?_⟩
      intro env s lineNumber e hlen
      rw [addOrToggleCommentAtLine]
      split
      · split
        · exact serFrame_trans ⟨rfl, rfl, rfl, rfl⟩ (hp env _ hlen)
        · exact serFrame_trans ⟨rfl, rfl, rfl, rfl⟩ (hl env _ _ _ hlen)
      · exact serFrame_rfl s
  | succ n ih =>
      have hp : ∀ env (s : ControllerState),
          s.emptyThreadsToAddQueue.length ≤ n + 1 →
          SerFrame s (processNextThreadToAdd env s) := by
        intro env s hlen
        rw [processNextThreadToAdd]
        split
        · exact ⟨rfl, rfl, rfl, rfl⟩
        · rename_i info rest h
          refine serFrame_trans ⟨rfl, rfl, rfl, rfl⟩ (ih.2.2.2 env _ _ _ ?_)
          rw [h] at hlen
          simp at hlen ⊢
          omega
      have h2 : ∀ env (s : ControllerState) lineNumber ownerId,
          s.emptyThreadsToAddQueue.length ≤ n + 1 →
          SerFrame s (addCommentAtLine2 env s lineNumber ownerId) := by
        intro env s lineNumber ownerId hlen
        rw [addCommentAtLine2]
        split
        · exact serFrame_rfl s
        · exact hp env _ hlen
      have hl : ∀ env (s : ControllerState) lineNumber e,
          s.emptyThreadsToAddQueue.length ≤ n + 1 →
          SerFrame s (addCommentAtLine env s lineNumber e) := by
        intro env s lineNumber e hlen
        rw [addCommentAtLine]
        split
        · exact serFrame_rfl s
        · split
          · exact serFrame_rfl s
          · exact h2 env _ _ _ hlen
          · exact serFrame_rfl s
      refine ⟨hp, h2, hl, ?_⟩
      intro env s lineNumber e hlen
      rw [addOrToggleCommentAtLine]
      split
      · split
        · exact serFrame_trans ⟨rfl, rfl, rfl, rfl⟩ (hp env _ hlen)
        · exact serFrame_trans ⟨rfl, rfl, rfl, rfl⟩ (hl env _ _ _ hlen)
      · exact serFrame_rfl s

/-- `addOrToggleCommentAtLine` frames the widget list, the snapshots, the
pending cache and the disposal log. -/
lemma addOrToggle_frame (env : Env) (s : ControllerState) (lineNumber : Nat)
    (e : Option EditorMouseEvent) :
    SerFrame s (addOrToggleCommentAtLine env s lineNumber e) :=
  (serializer_frame_aux s.emptyThreadsToAddQueue.length).2.2.2 env s lineNumber e
    (Nat.le_refl _)

/-! ### Serializer step lemmas and the ghost-trace theory for C2 -/

/-- A call arriving while an add is in progress only queues `(lineNumber, e)`
(lines 237-239): no other field changes and nothing is processed. -/
lemma addOrToggle_queued (env : Env) (s : ControllerState) (lineNumber : Nat)
    (e : Option EditorMouseEvent) (hf : s.addInProgress = true) :
    addOrToggleCommentAtLine env s lineNumber e =
      { s with emptyThreadsToAddQueue :=
          s.emptyThreadsToAddQueue ++ [(lineNumber, e)] } := by
  rw [addOrToggleCommentAtLine]
  simp [hf]

/-- A call arriving with the serializer idle and the queue empty either runs
to completion (flag released, `enter`/`exit` recorded) or hits one of the
early returns of `addCommentAtLine` / `addCommentAtLine2` and leaks the flag
(`enter` recorded, no `exit`).  Either way the queue stays empty. -/
lemma addOrToggle_step_empty (env : Env) (s : ControllerState) (lineNumber : Nat)
    (e : Option EditorMouseEvent) (hf : s.addInProgress = false)
    (hq : s.emptyThreadsToAddQueue = []) :
    ((addOrToggleCommentAtLine env s lineNumber e).addInProgress = false ∧
      (addOrToggleCommentAtLine env s lineNumber e).emptyThreadsToAddQueue = [] ∧
      (addOrToggleCommentAtLine env s lineNumber e).serializerTrace =
        s.serializerTrace ++ [SEvent.enter lineNumber, SEvent.exit]) ∨
    ((addOrToggleCommentAtLine env s lineNumber e).addInProgress = true ∧
      (addOrToggleCommentAtLine env s lineNumber e).emptyThreadsToAddQueue = [] ∧
      (addOrToggleCommentAtLine env s lineNumber e).serializerTrace =
        s.serializerTrace ++ [SEvent.enter lineNumber]) := by
  rw [addOrToggleCommentAtLine]
  simp only [hf, Bool.not_false, if_true]
  split
  · -- occupied line: skip creation, drain the (empty) queue
    left
    rw [processNextThreadToAdd]
    split
    · simp [markInProgress, hq]
    · rename_i info rest h
      simp [markInProgress, hq] at h
  · -- creation workflow
    rw [addCommentAtLine]
    split
    · -- no current editor: leak
      right
      simp [markInProgress, hq]
    · split
      · -- zero candidate actions: leak
        right
        simp [markInProgress, hq]
      · -- exactly one candidate: addCommentAtLine2
        rw [addCommentAtLine2]
        split
        · -- no editor model URI: leak
          right
          simp [markInProgress, hq]
        · -- template created, serializer released
          left
          rw [processNextThreadToAdd]
          split
          · simp [markInProgress, hq]
          · rename_i info rest h
            simp [markInProgress, hq] at h
      · -- more than one candidate action: leak
        right
        simp [markInProgress, hq]

/-- The lines of the `enter` events of a trace, in order: the requests the
serializer actually began processing. -/
def entersOf : List SEvent → List Nat
  | [] => []
  | SEvent.enter l :: r => l :: entersOf r
  | SEvent.exit :: r => entersOf r

/-- Mutual-exclusion automaton over the ghost trace: from `busy = false` an
`enter` is legal, from `busy = true` an `exit` is legal, anything else
(a second `enter` while busy, an `exit` while idle) is rejected.  Returns the
final busy flag of a legal trace. -/
def scanTrace : Bool → List SEvent → Option Bool
  | b, [] => some b
  | false, SEvent.enter _ :: r => scanTrace true r
  | true, SEvent.exit :: r => scanTrace false r
  | _, _ => none

lemma entersOf_append (t u : List SEvent) :
    entersOf (t ++ u) = entersOf t ++ entersOf u := by
  induction t with
  | nil => rfl
  | cons a r ih => cases a <;> simp [entersOf, ih]

lemma scanTrace_append (t u : List SEvent) (b : Bool) :
    scanTrace b (t ++ u) = (scanTrace b t).bind fun b2 => scanTrace b2 u := by
  induction t generalizing b with
  | nil => cases b <;> rfl
  | cons a r ih => cases a <;> cases b <;> simp [scanTrace, ih]

lemma run_nil (env : Env) (s : ControllerState) : run env s [] = s := rfl

lemma run_cons (env : Env) (s : ControllerState) (r : Nat × Option EditorMouseEvent)
    (rest : List (Nat × Option EditorMouseEvent)) :
    run env s (r :: rest) =
      run env (addOrToggleCommentAtLine env s r.1 r.2) rest := rfl

/-- Once the flag is stuck at `true`, every further synchronous call only
queues: the trace never grows and the flag never clears. -/
lemma run_stuck (env : Env) :
    ∀ (reqs : List (Nat × Option EditorMouseEvent)) (s : ControllerState),
    s.addInProgress = true →
    (run env s reqs).serializerTrace = s.serializerTrace ∧
      (run env s reqs).addInProgress = true := by
  intro reqs
  induction reqs with
  | nil => intro s h; exact ⟨rfl, h⟩
  | cons r rest ih =>
      intro s h
      rw [run_cons, addOrToggle_queued env s r.1 r.2 h]
      exact ih _ h

/-- Main induction for C2: from an idle, queue-empty state with a legal
trace, a synchronous call sequence appends to the trace the `enter`s of a
prefix of the arrival order, and keeps the trace legal with the automaton's
final state equal to `_addInProgress`. -/
lemma run_good (env : Env) :
    ∀ (reqs : List (Nat × Option EditorMouseEvent)) (s : ControllerState),
    s.addInProgress = false → s.emptyThreadsToAddQueue = [] →
    scanTrace false s.serializerTrace = some false →
    ∃ p, entersOf (run env s reqs).serializerTrace =
        entersOf s.serializerTrace ++ p ∧
      p.isPrefixOf (reqs.map Prod.fst) = true ∧
      scanTrace false (run env s reqs).serializerTrace =
        some (run env s reqs).addInProgress := by
  intro reqs
  induction reqs with
  | nil =>
      intro s hf hq hscan
      exact ⟨[], by simp [run_nil], by simp, by simp [run_nil, hscan, hf]⟩
  | cons r rest ih =>
      intro s hf hq hscan
      rcases addOrToggle_step_empty env s r.1 r.2 hf hq with hc | hl
      · obtain ⟨hf1, hq1, ht1⟩ := hc
        obtain ⟨p, hp1, hp2, hp3⟩ := ih (addOrToggleCommentAtLine env s r.1 r.2) hf1 hq1
          (by rw [ht1, scanTrace_append, hscan]; rfl)
        refine ⟨r.1 :: p, ?_, ?_, ?_⟩
        · rw [run_cons, hp1, ht1, entersOf_append]
          simp [entersOf]
        · simp [List.isPrefixOf, hp2]
        · rw [run_cons]; exact hp3
      · obtain ⟨hf1, hq1, ht1⟩ := hl
        obtain ⟨ht2, hf2⟩ := run_stuck env rest _ hf1
        refine ⟨[r.1], ?_, ?_, ?_⟩
        · rw [run_cons, ht2, ht1, entersOf_append]
          simp [entersOf]
        · simp [List.isPrefixOf]
        · rw [run_cons, ht2, ht1, scanTrace_append, hscan, hf2]
          rfl

/-- C2: for every synchronous sequence of `addOrToggleCommentAtLine` calls
from the freshly constructed controller, (i) the requests the serializer
begins processing form a prefix of the arrival order (FIFO; a proper prefix
arises only when an early return freezes the flag, see the C1 theorem);
(ii) the ghost trace is accepted by the one-slot mutual-exclusion automaton
`scanTrace` with final state `_addInProgress`, so the flag is set exactly
while a request is being processed and no two creation workflows are ever in
progress at once; and (iii) `processNextThreadToAdd` pops the oldest queued
entry and re-invokes `addOrToggleCommentAtLine` with it. -/
theorem serializer_fifo_mutex (env : Env)
    (reqs : List (Nat × Option EditorMouseEvent)) :
    (entersOf (run env initialState reqs).serializerTrace).isPrefixOf
        (reqs.map Prod.fst) = true ∧
    scanTrace false (run env initialState reqs).serializerTrace =
      some (run env initialState reqs).addInProgress ∧
    (∀ (s : ControllerState) (lineNumber : Nat) (e : Option EditorMouseEvent)
        (rest : List (Nat × Option EditorMouseEvent)),
      processNextThreadToAdd env
          { s with emptyThreadsToAddQueue := (lineNumber, e) :: rest } =
        addOrToggleCommentAtLine env
          { s with addInProgress := false
                   serializerTrace := s.serializerTrace ++ [SEvent.exit]
                   emptyThreadsToAddQueue := rest } lineNumber e) := by
  obtain ⟨p, h1, h2, h3⟩ := run_good env reqs initialState rfl rfl rfl
  refine ⟨?_, h3, ?_⟩
  · rw [h1]
    simpa [initialState, entersOf] using h2
  · intro s lineNumber e rest
    rw [processNextThreadToAdd]

/-- C1 is violated by the code (the spec is the intent): with a diff editor
open and a line yielding zero candidate comment actions,
`addCommentAtLine` returns without invoking `processNextThreadToAdd`, so the
request exits with `_addInProgress` still held (the trace shows `enter 5`
and no `exit`, and no template was created), and the next request is parked
in `_emptyThreadsToAddQueue` forever: the insertion queue deadlocks. -/
theorem addCommentAtLine_leaks_lock :
    (run exEnv initialState [(5, none), (6, none)]).addInProgress = true ∧
    (run exEnv initialState [(5, none), (6, none)]).emptyThreadsToAddQueue =
      [(6, none)] ∧
    (run exEnv initialState [(5, none), (6, none)]).serializerTrace =
      [SEvent.enter 5] ∧
    (run exEnv initialState [(5, none), (6, none)]).createdTemplates = [] := by
  have h1 : addOrToggleCommentAtLine exEnv initialState 5 none =
      { initialState with addInProgress := true
                          serializerTrace := [SEvent.enter 5] } := by
    rw [addOrToggleCommentAtLine]
    simp [initialState, addCommentAtLine, getCurrentEditor, exEnv, editorURI,
      editor, markInProgress]
  have h2 : addOrToggleCommentAtLine exEnv
      { initialState with addInProgress := true
                          serializerTrace := [SEvent.enter 5] } 6 none =
      { initialState with addInProgress := true
                          serializerTrace := [SEvent.enter 5]
                          emptyThreadsToAddQueue := [(6, none)] } := by
    rw [addOrToggle_queued _ _ _ _ rfl]
    rfl
  simp only [run_cons, run_nil, h1, h2]
  exact ⟨trivial, trivial, trivial, rfl⟩

/-! ### Reconciler helper lemmas -/

/-- Number of live widgets for a given `(owner, threadId)` key. -/
def widgetCount (ws : List CommentThreadWidget) (o tid : String) : Nat :=
  (ws.filter (widgetMatches o tid)).length

/-- The spec's WidgetHandle invariant: at most one live widget per
`(owner, threadId)` among non-empty `threadId`s. -/
def widgetInv (ws : List CommentThreadWidget) : Prop :=
  ∀ o tid, tid ≠ "" → widgetCount ws o tid ≤ 1

/-- For a non-empty id, the removal predicate of lines 98-99 coincides with
plain `(owner, threadId)` matching: the extra `threadId !== ''` conjunct can
only fire on the empty id. -/
lemma removeMatches_eq (o tid : String) (htid : tid ≠ "") :
    removeMatches o tid = widgetMatches o tid := by
  funext z
  simp only [removeMatches, widgetMatches]
  by_cases h : z.commentThread.threadId = tid
  · simp [h, htid]
  · simp [h]

/-- A removal with the empty placeholder id can never match any widget. -/
lemma removeMatches_empty_tid (o : String) (z : CommentThreadWidget) :
    removeMatches o "" z = false := by
  simp only [removeMatches]
  by_cases h : z.commentThread.threadId = ""
  · simp [h]
  · simp [h]

/-- Splicing out the first match removes exactly the head of the matched
sublist. -/
lemma filter_eraseP_self {α : Type} (p : α → Bool) (l : List α) :
    List.filter p (l.eraseP p) = (List.filter p l).drop 1 := by
  induction l with
  | nil => rfl
  | cons a t ih =>
      by_cases h : p a
      · simp [List.eraseP_cons, h]
      · simp [List.eraseP_cons, h, List.filter_cons, ih]

lemma widgetCount_append_one (ws : List CommentThreadWidget)
    (w : CommentThreadWidget) (o tid : String) :
    widgetCount (ws ++ [w]) o tid =
      widgetCount ws o tid + (if widgetMatches o tid w then 1 else 0) := by
  by_cases h : widgetMatches o tid w <;>
    simp [widgetCount, List.filter_append, h]

/-- `removeOne` never increases any key's widget count. -/
lemma widgetCount_removeOne_le (o : String) (s : ControllerState)
    (t : CommentThread) (o2 tid2 : String) :
    widgetCount (removeOne o s t).commentWidgets o2 tid2 ≤
      widgetCount s.commentWidgets o2 tid2 := by
  rw [removeOne]
  split
  · exact Nat.le_refl _
  · exact (((List.eraseP_sublist _).filter _)).length_le

/-- `removeOne` touches only the widget list and the disposal log. -/
lemma removeOne_frame (o : String) (s : ControllerState) (t : CommentThread) :
    (removeOne o s t).commentInfos = s.commentInfos ∧
    (removeOne o s t).pendingCommentCache = s.pendingCommentCache := by
  rw [removeOne]
  split
  · exact ⟨rfl, rfl⟩
  · exact ⟨rfl, rfl⟩

/-- `changeOne` touches only the update log. -/
lemma changeOne_frame (o : String) (s : ControllerState) (t : CommentThread) :
    (changeOne o s t).commentWidgets = s.commentWidgets ∧
    (changeOne o s t).commentInfos = s.commentInfos ∧
    (changeOne o s t).pendingCommentCache = s.pendingCommentCache ∧
    (changeOne o s t).disposedWidgets = s.disposedWidgets := by
  rw [changeOne]
  split
  · exact ⟨rfl, rfl, rfl, rfl⟩
  · exact ⟨rfl, rfl, rfl, rfl⟩

lemma changeFold_frame (o : String) (ts : List CommentThread) :
    ∀ s : ControllerState,
    ((ts.foldl (changeOne o) s).commentWidgets = s.commentWidgets ∧
      (ts.foldl (changeOne o) s).commentInfos = s.commentInfos ∧
      (ts.foldl (changeOne o) s).pendingCommentCache = s.pendingCommentCache ∧
      (ts.foldl (changeOne o) s).disposedWidgets = s.disposedWidgets) := by
  induction ts with
  | nil => intro s; exact ⟨rfl, rfl, rfl, rfl⟩
  | cons t rest ih =>
      intro s
      obtain ⟨h1, h2, h3, h4⟩ := ih (changeOne o s t)
      obtain ⟨g1, g2, g3, g4⟩ := changeOne_frame o s t
      exact ⟨h1.trans g1, h2.trans g2, h3.trans g3, h4.trans g4⟩

/-- The first-match snapshot (`_commentInfos.filter(owner)[0]`), as a thread
list (empty when the owner is unknown, which the handler guard rules out). -/
def firstOwnerThreads (infos : List CommentInfo) (owner : String) :
    List CommentThread :=
  match infos.filter (fun i => i.owner == owner) with
  | [] => []
  | i :: _ => i.threads

lemma firstOwnerThreads_push (infos : List CommentInfo) (o : String)
    (t : CommentThread)
    (h : (infos.filter fun i => i.owner == o).length ≠ 0) :
    firstOwnerThreads (pushThreadToFirstOwner infos o t) o =
      firstOwnerThreads infos o ++ [t] := by
  induction infos with
  | nil => simp at h
  | cons i rest ih =>
      by_cases hio : (i.owner == o) = true
      · simp [pushThreadToFirstOwner, hio, firstOwnerThreads, List.filter_cons]
      · rw [List.filter_cons] at h
        simp only [hio] at h
        simp only [pushThreadToFirstOwner, hio, if_false, Bool.false_eq_true]
        simp only [firstOwnerThreads, List.filter_cons, hio, if_false,
          Bool.false_eq_true]
        exact ih h

/-- `pushThreadToFirstOwner` alters no owner field, so owner filters keep
their length. -/
lemma pushThread_filter_length (infos : List CommentInfo) (o o2 : String)
    (t : CommentThread) :
    ((pushThreadToFirstOwner infos o t).filter fun i => i.owner == o2).length =
      (infos.filter fun i => i.owner == o2).length := by
  induction infos with
  | nil => rfl
  | cons i rest ih =>
      by_cases hio : (i.owner == o) = true
      · simp only [pushThreadToFirstOwner, hio, if_true, List.filter_cons]
        split <;> simp
      · simp only [pushThreadToFirstOwner, hio, if_false, Bool.false_eq_true,
          List.filter_cons]
        split <;> simp [ih]

/-- `addOne` with no editor only updates the snapshot list. -/
lemma addOne_widgets_none (env : Env) (o : String) (s : ControllerState)
    (t : CommentThread) (h : editor env = none) :
    (addOne env o s t).commentWidgets = s.commentWidgets := by
  simp [addOne, displayCommentThread, h]

/-- `addOne` with an editor appends exactly one widget: owned by `o`,
holding `t`, pre-filled from the pending cache, anchored at the thread's
start line. -/
lemma addOne_widgets_some (env : Env) (o : String) (s : ControllerState)
    (t : CommentThread) (ed : ModifiedEditor) (h : editor env = some ed) :
    (addOne env o s t).commentWidgets = s.commentWidgets ++
      [{ owner := o, commentThread := t
         pendingComment := (s.pendingCommentCache.lookup o).bind
           fun m => m.lookup t.threadId
         glyphPosition := t.range.startLineNumber }] := by
  simp [addOne, displayCommentThread, h]

lemma addOne_cache (env : Env) (o : String) (s : ControllerState)
    (t : CommentThread) :
    (addOne env o s t).pendingCommentCache = s.pendingCommentCache := by
  rw [addOne]
  unfold displayCommentThread
  split <;> rfl

/-- The reconciler handler, with both guards discharged, is the
removals-then-changes-then-additions pipeline over the resource-filtered
sub-lists. -/
lemma handler_unfold (env : Env) (s : ControllerState)
    (e : CommentThreadChangedEvent) (uri : String)
    (huri : editorURI env = some uri)
    (howner : (s.commentInfos.filter fun i => i.owner == e.owner).length ≠ 0) :
    onDidUpdateCommentThreads env s e =
      (e.added.filter fun t => resourceMatches t uri).foldl (addOne env e.owner)
        ((e.changed.filter fun t => resourceMatches t uri).foldl
          (changeOne e.owner)
          ((e.removed.filter fun t => resourceMatches t uri).foldl
            (removeOne e.owner) s)) := by
  rw [onDidUpdateCommentThreads, huri]
  simp [howner]

/-! ### C8: removal semantics -/

/-- C8: in a batch removing thread `T` for the active resource and a known
owner, a non-empty `threadId` with a unique live match `w` gets `w` spliced
out of the widget list and disposed, while the empty placeholder id never
matches and leaves the widget list unchanged. -/
theorem removal_semantics (env : Env) (s : ControllerState) (T : CommentThread)
    (owner uri : String)
    (huri : editorURI env = some uri)
    (hres : T.resource = some uri)
    (howner : (s.commentInfos.filter fun i => i.owner == owner).length ≠ 0) :
    (T.threadId = "" →
      (onDidUpdateCommentThreads env s ⟨owner, [], [T], []⟩).commentWidgets =
        s.commentWidgets) ∧
    (∀ w, T.threadId ≠ "" →
      s.commentWidgets.filter (widgetMatches owner T.threadId) = [w] →
      (onDidUpdateCommentThreads env s ⟨owner, [], [T], []⟩).commentWidgets =
        s.commentWidgets.eraseP (widgetMatches owner T.threadId) ∧
      (onDidUpdateCommentThreads env s ⟨owner, [], [T], []⟩).disposedWidgets =
        s.disposedWidgets ++ [w]) := by
  have h := handler_unfold env s ⟨owner, [], [T], []⟩ uri huri howner
  simp only [List.filter_cons, List.filter_nil, resourceMatches, hres,
    beq_self_eq_true, if_true, List.foldl_cons, List.foldl_nil] at h
  rw [h]
  constructor
  · intro htid
    have hnil : ∀ ws : List CommentThreadWidget,
        ws.filter (removeMatches owner "") = [] := by
      intro ws
      induction ws with
      | nil => rfl
      | cons a t ih => simp [List.filter_cons, removeMatches_empty_tid, ih]
    rw [removeOne, htid, hnil]
  · intro w htid hw
    rw [removeOne, removeMatches_eq owner T.threadId htid, hw]
    exact ⟨rfl, rfl⟩

/-- Witness for C8, on the running example: removing `exThread` (id `"t1"`,
unique live widget `exWidget`) splices it out and disposes it. -/
def exThread : CommentThread :=
  { threadId := "t1", resource := some exURI
    range := { startLineNumber := 3, endLineNumber := 3
               startColumn := 1, endColumn := 1 } }

/-- The widget displaying `exThread` in the examples. -/
def exWidget : CommentThreadWidget :=
  { owner := "o1", commentThread := exThread, pendingComment := none
    glyphPosition := 3 }

/-- A controller state where `"o1"` has a snapshot and `exWidget` is live. -/
def exStateC8 : ControllerState :=
  { initialState with
      commentInfos := [{ owner := "o1", threads := [exThread] }]
      commentWidgets := [exWidget] }

theorem removal_semantics_witness :
    exThread.threadId ≠ "" ∧
    exStateC8.commentWidgets.filter (widgetMatches "o1" exThread.threadId) =
      [exWidget] ∧
    (onDidUpdateCommentThreads exEnv exStateC8
        ⟨"o1", [], [exThread], []⟩).commentWidgets =
      exStateC8.commentWidgets.eraseP (widgetMatches "o1" exThread.threadId) ∧
    (onDidUpdateCommentThreads exEnv exStateC8
        ⟨"o1", [], [exThread], []⟩).disposedWidgets =
      exStateC8.disposedWidgets ++ [exWidget] := by
  refine ⟨by decide, by rfl, ?_⟩
  exact (removal_semantics exEnv exStateC8 exThread "o1" exURI rfl rfl
    (by decide)).2 exWidget (by decide) (by rfl)

/-! ### C9: addition semantics -/

/-- C9: in a batch adding thread `T` for the active resource and a known
owner, exactly one new widget is appended: owned by `owner`, displaying `T`,
pre-filled with the pending free-text cached for `(owner, T.threadId)` when
present, anchored at `T`'s start line; and `T` is appended to the owner's
first cached snapshot. -/
theorem addition_semantics (env : Env) (ed : ModifiedEditor)
    (s : ControllerState) (T : CommentThread) (owner uri : String)
    (hed : editor env = some ed) (hm : ed.model = some uri)
    (hres : T.resource = some uri)
    (howner : (s.commentInfos.filter fun i => i.owner == owner).length ≠ 0) :
    (onDidUpdateCommentThreads env s ⟨owner, [T], [], []⟩).commentWidgets =
      s.commentWidgets ++
        [{ owner := owner, commentThread := T
           pendingComment := (s.pendingCommentCache.lookup owner).bind
             fun m => m.lookup T.threadId
           glyphPosition := T.range.startLineNumber }] ∧
    firstOwnerThreads
        (onDidUpdateCommentThreads env s ⟨owner, [T], [], []⟩).commentInfos
        owner =
      firstOwnerThreads s.commentInfos owner ++ [T] := by
  have huri : editorURI env = some uri := by simp [editorURI, hed, hm]
  have h := handler_unfold env s ⟨owner, [T], [], []⟩ uri huri howner
  simp only [List.filter_cons, List.filter_nil, resourceMatches, hres,
    beq_self_eq_true, if_true, List.foldl_cons, List.foldl_nil] at h
  rw [h]
  constructor
  · exact addOne_widgets_some env owner s T ed hed
  · rw [addOne]
    simp only [displayCommentThread, hed]
    exact firstOwnerThreads_push s.commentInfos owner T howner

/-- A controller state with a known owner `"o1"` and a cached pending text
for `("o1", "t1")`. -/
def exStateC9 : ControllerState :=
  { initialState with
      commentInfos := [{ owner := "o1", threads := [] }]
      pendingCommentCache := [("o1", [("t1", "draft text")])] }

theorem addition_semantics_witness :
    (onDidUpdateCommentThreads exEnv exStateC9
        ⟨"o1", [exThread], [], []⟩).commentWidgets =
      [{ owner := "o1", commentThread := exThread
         pendingComment := some "draft text", glyphPosition := 3 }] ∧
    firstOwnerThreads
        (onDidUpdateCommentThreads exEnv exStateC9
          ⟨"o1", [exThread], [], []⟩).commentInfos "o1" = [exThread] := by
  obtain ⟨h1, h2⟩ := addition_semantics exEnv { model := some exURI } exStateC9
    exThread "o1" exURI rfl rfl rfl (by decide)
  constructor
  · rw [h1]; rfl
  · rw [h2]; rfl

/-! ### C5: idempotence on occupied lines -/

/-- C5: for a line that already has a displayed widget anchored at it, two
successive `addOrToggleCommentAtLine` calls leave the widget list restricted
to that line unchanged: the occupied-line branch skips creation, and no path
of the serializer ever pushes a widget. -/
theorem addOrToggle_idempotent_occupied (env : Env) (s : ControllerState)
    (lineNumber : Nat) (e1 e2 : Option EditorMouseEvent)
    (hocc : (s.commentWidgets.filter
      fun w => w.getGlyphPosition == lineNumber).isEmpty = false) :
    ((addOrToggleCommentAtLine env
        (addOrToggleCommentAtLine env s lineNumber e1)
        lineNumber e2).commentWidgets.filter
      fun w => w.getGlyphPosition == lineNumber) =
      s.commentWidgets.filter fun w => w.getGlyphPosition == lineNumber := by
  obtain ⟨h1, -, -, -⟩ := addOrToggle_frame env s lineNumber e1
  obtain ⟨h2, -, -, -⟩ := addOrToggle_frame env
    (addOrToggleCommentAtLine env s lineNumber e1) lineNumber e2
  rw [h2, h1]

theorem addOrToggle_idempotent_occupied_witness :
    (exStateC8.commentWidgets.filter
      fun w => w.getGlyphPosition == 3).isEmpty = false ∧
    ((addOrToggleCommentAtLine exEnv
        (addOrToggleCommentAtLine exEnv exStateC8 3 none)
        3 none).commentWidgets.filter fun w => w.getGlyphPosition == 3) =
      exStateC8.commentWidgets.filter fun w => w.getGlyphPosition == 3 :=
  ⟨by rfl, addOrToggle_idempotent_occupied exEnv exStateC8 3 none none (by rfl)⟩

/-! ### Further counting lemmas for the removal phase -/

/-- Removing a thread with a non-empty id drops its own key's count by one
(truncated at zero when nothing matches). -/
lemma widgetCount_removeOne (o : String) (s : ControllerState)
    (t : CommentThread) (htid : t.threadId ≠ "") :
    widgetCount (removeOne o s t).commentWidgets o t.threadId =
      widgetCount s.commentWidgets o t.threadId - 1 := by
  rw [removeOne, removeMatches_eq o t.threadId htid]
  split
  · rename_i hz
    simp [widgetCount, hz]
  · simp [widgetCount, filter_eraseP_self]

lemma removeFold_count_le (o : String) (ts : List CommentThread) :
    ∀ (s : ControllerState) (o2 tid2 : String),
    widgetCount ((ts.foldl (removeOne o) s).commentWidgets) o2 tid2 ≤
      widgetCount s.commentWidgets o2 tid2 := by
  induction ts with
  | nil => intro s o2 tid2; exact Nat.le_refl _
  | cons t rest ih =>
      intro s o2 tid2
      exact (ih (removeOne o s t) o2 tid2).trans
        (widgetCount_removeOne_le o s t o2 tid2)

lemma removeFold_frame (o : String) (ts : List CommentThread) :
    ∀ s : ControllerState,
    ((ts.foldl (removeOne o) s).commentInfos = s.commentInfos ∧
      (ts.foldl (removeOne o) s).pendingCommentCache = s.pendingCommentCache) := by
  induction ts with
  | nil => intro s; exact ⟨rfl, rfl⟩
  | cons t rest ih =>
      intro s
      obtain ⟨h1, h2⟩ := ih (removeOne o s t)
      obtain ⟨g1, g2⟩ := removeOne_frame o s t
      exact ⟨h1.trans g1, h2.trans g2⟩

/-- `addOne` updates the snapshot list exactly by the first-owner push. -/
lemma addOne_infos (env : Env) (o : String) (s : ControllerState)
    (t : CommentThread) :
    (addOne env o s t).commentInfos =
      pushThreadToFirstOwner s.commentInfos o t := by
  rw [addOne]
  unfold displayCommentThread
  split <;> rfl

/-! ### C6: round trip to empty -/

/-- The not-yet-persisted placeholder thread (empty `threadId`) of the
counterexamples. -/
def exEmptyThread : CommentThread :=
  { threadId := "", resource := some exURI
    range := { startLineNumber := 4, endLineNumber := 4
               startColumn := 1, endColumn := 1 } }

/-- A state actually reached from the constructor state: `beginCompute`
fetches the backend snapshot for the active resource, making owner `"o1"`
locally known. -/
def exStateReached : ControllerState := beginCompute exEnv initialState

/-- C6 as stated is false on the code: for the placeholder thread
`exEmptyThread` (threadId `""` — still a thread relevant to the active
resource with a locally known owner), the `added` batch creates a widget but
the subsequent `removed` batch never matches it (line 99 requires a
non-empty id), so one WidgetHandle for it remains instead of zero. -/
theorem roundtrip_empty_tid_counterexample :
    widgetCount
      (onDidUpdateCommentThreads exEnv
        (onDidUpdateCommentThreads exEnv exStateReached
          ⟨"o1", [exEmptyThread], [], []⟩)
        ⟨"o1", [], [exEmptyThread], []⟩).commentWidgets "o1" "" = 1 := by
  rfl

/-- C6 amended: restricted to threads with a non-empty `threadId` (the
placeholder id is never matched for removal, by design of line 99) and to
states with no live widget for the key yet, applying `{added:[T]}` then
`{removed:[T]}` leaves zero WidgetHandles for `T`. -/
theorem roundtrip_to_empty_amended (env : Env) (ed : ModifiedEditor)
    (s : ControllerState) (T : CommentThread) (owner uri : String)
    (hed : editor env = some ed) (hm : ed.model = some uri)
    (hres : T.resource = some uri)
    (howner : (s.commentInfos.filter fun i => i.owner == owner).length ≠ 0)
    (htid : T.threadId ≠ "")
    (hzero : widgetCount s.commentWidgets owner T.threadId = 0) :
    widgetCount
      (onDidUpdateCommentThreads env
        (onDidUpdateCommentThreads env s ⟨owner, [T], [], []⟩)
        ⟨owner, [], [T], []⟩).commentWidgets owner T.threadId = 0 := by
  have huri : editorURI env = some uri := by simp [editorURI, hed, hm]
  have h1 := handler_unfold env s ⟨owner, [T], [], []⟩ uri huri howner
  simp only [List.filter_cons, List.filter_nil, resourceMatches, hres,
    beq_self_eq_true, if_true, List.foldl_cons, List.foldl_nil] at h1
  have hW1 : (onDidUpdateCommentThreads env s
      ⟨owner, [T], [], []⟩).commentWidgets = s.commentWidgets ++
      [{ owner := owner, commentThread := T
         pendingComment := (s.pendingCommentCache.lookup owner).bind
           fun m => m.lookup T.threadId
         glyphPosition := T.range.startLineNumber }] := by
    rw [h1]
    exact addOne_widgets_some env owner s T ed hed
  have hI1 : (onDidUpdateCommentThreads env s
      ⟨owner, [T], [], []⟩).commentInfos =
      pushThreadToFirstOwner s.commentInfos owner T := by
    rw [h1]
    exact addOne_infos env owner s T
  have howner2 : (((onDidUpdateCommentThreads env s
      ⟨owner, [T], [], []⟩).commentInfos.filter
        fun i => i.owner == owner)).length ≠ 0 := by
    rw [hI1, pushThread_filter_length]
    exact howner
  have h2 := handler_unfold env (onDidUpdateCommentThreads env s
    ⟨owner, [T], [], []⟩) ⟨owner, [], [T], []⟩ uri huri howner2
  simp only [List.filter_cons, List.filter_nil, resourceMatches, hres,
    beq_self_eq_true, if_true, List.foldl_cons, List.foldl_nil] at h2
  rw [h2, widgetCount_removeOne owner _ T htid, hW1, widgetCount_append_one,
    hzero]
  simp [widgetMatches]

theorem roundtrip_to_empty_amended_witness :
    exThread.threadId ≠ "" ∧
    widgetCount exStateReached.commentWidgets "o1" exThread.threadId = 0 ∧
    widgetCount
      (onDidUpdateCommentThreads exEnv
        (onDidUpdateCommentThreads exEnv exStateReached
          ⟨"o1", [exThread], [], []⟩)
        ⟨"o1", [], [exThread], []⟩).commentWidgets "o1" exThread.threadId = 0 :=
  ⟨by decide, by rfl,
    roundtrip_to_empty_amended exEnv { model := some exURI } exStateReached
      exThread "o1" exURI rfl rfl rfl (by decide) (by decide) (by rfl)⟩

/-! ### C7: removal-before-addition within one batch -/

/-- C7 as stated is false on the code: for a batch that removes and re-adds
the placeholder thread `exEmptyThread` (threadId `""`), the removal phase
never matches the live placeholder widget (line 99 requires a non-empty id)
while the addition phase still appends a new one, leaving two widgets for
that threadId instead of exactly one. -/
theorem replace_batch_counterexample :
    widgetCount
      (onDidUpdateCommentThreads exEnv
        (onDidUpdateCommentThreads exEnv exStateReached
          ⟨"o1", [exEmptyThread], [], []⟩)
        ⟨"o1", [exEmptyThread], [exEmptyThread], []⟩).commentWidgets "o1" ""
      = 2 := by
  rfl

/-- C7 amended: for a batch removing `Told` and adding `Tnew` with the same
non-empty `threadId` (arbitrary `changed` sub-list), from a state satisfying
the at-most-one invariant for that key, the handler applies the removal
before the addition and exactly one widget for the key remains — the newly
created one. -/
theorem replace_batch_amended (env : Env) (ed : ModifiedEditor)
    (s : ControllerState) (Told Tnew : CommentThread) (owner uri : String)
    (chg : List CommentThread)
    (hed : editor env = some ed) (hm : ed.model = some uri)
    (hresOld : Told.resource = some uri) (hresNew : Tnew.resource = some uri)
    (howner : (s.commentInfos.filter fun i => i.owner == owner).length ≠ 0)
    (htid : Tnew.threadId ≠ "") (hsame : Told.threadId = Tnew.threadId)
    (hle : widgetCount s.commentWidgets owner Tnew.threadId ≤ 1) :
    (onDidUpdateCommentThreads env s
        ⟨owner, [Tnew], [Told], chg⟩).commentWidgets.filter
      (widgetMatches owner Tnew.threadId) =
      [{ owner := owner, commentThread := Tnew
         pendingComment := (s.pendingCommentCache.lookup owner).bind
           fun m => m.lookup Tnew.threadId
         glyphPosition := Tnew.range.startLineNumber }] := by
  have huri : editorURI env = some uri := by simp [editorURI, hed, hm]
  have hfil : ∀ T2 : CommentThread, T2.resource = some uri →
      ([T2].filter fun t => resourceMatches t uri) = [T2] := by
    intro T2 h2
    simp [List.filter_cons, resourceMatches, h2]
  have h := handler_unfold env s ⟨owner, [Tnew], [Told], chg⟩ uri huri howner
  simp only [hfil Tnew hresNew, hfil Told hresOld, List.foldl_cons,
    List.foldl_nil] at h
  have htold : Told.threadId ≠ "" := by rw [hsame]; exact htid
  have hcount := widgetCount_removeOne owner s Told htold
  rw [hsame] at hcount
  have hc0 : widgetCount (removeOne owner s Told).commentWidgets owner
      Tnew.threadId = 0 := by omega
  have hf1 : (removeOne owner s Told).commentWidgets.filter
      (widgetMatches owner Tnew.threadId) = [] := List.length_eq_zero.mp hc0
  obtain ⟨hw2, -, hc2, -⟩ := changeFold_frame owner
    (chg.filter fun t => resourceMatches t uri) (removeOne owner s Told)
  obtain ⟨-, hcache1⟩ := removeOne_frame owner s Told
  rw [h, addOne_widgets_some env owner _ Tnew ed hed, List.filter_append,
    hw2, hf1, hc2, hcache1]
  simp [widgetMatches]

/-- The replacement thread of the C7 witness: same id `"t1"` as `exThread`,
re-anchored at line 7. -/
def exThreadNew : CommentThread :=
  { threadId := "t1", resource := some exURI
    range := { startLineNumber := 7, endLineNumber := 7
               startColumn := 1, endColumn := 1 } }

theorem replace_batch_amended_witness :
    exThreadNew.threadId ≠ "" ∧
    widgetCount exStateC8.commentWidgets "o1" exThreadNew.threadId ≤ 1 ∧
    (onDidUpdateCommentThreads exEnv exStateC8
        ⟨"o1", [exThreadNew], [exThread], []⟩).commentWidgets.filter
      (widgetMatches "o1" exThreadNew.threadId) =
      [{ owner := "o1", commentThread := exThreadNew, pendingComment := none
         glyphPosition := 7 }] :=
  ⟨by decide, by decide,
    Eq.trans
      (replace_batch_amended exEnv { model := some exURI } exStateC8 exThread
        exThreadNew "o1" exURI [] rfl rfl rfl rfl (by decide) (by decide) rfl
        (by decide))
      (by rfl)⟩

/-! ### C4: the at-most-one-widget-per-key invariant -/

/-- C4 as stated is false on the code: nothing prevents the backend from
announcing the same thread as `added` twice (here in two successive
batches), and `displayCommentThread` performs no duplicate check, so two
live widgets for `("o1", "t1")` result — both states reachable by batch
applications from a state the controller itself built via `beginCompute`. -/
theorem widget_dup_counterexample :
    widgetCount
      (onDidUpdateCommentThreads exEnv
        (onDidUpdateCommentThreads exEnv exStateReached
          ⟨"o1", [exThread], [], []⟩)
        ⟨"o1", [exThread], [], []⟩).commentWidgets "o1" "t1" = 2 := by
  rfl

/-- One controller step: a reconciler batch application or a serializer
request (the only two operations that can touch the widget list). -/
inductive Step
  | batch (e : CommentThreadChangedEvent)
  | request (lineNumber : Nat) (e : Option EditorMouseEvent)

def runStep (env : Env) (s : ControllerState) : Step → ControllerState
  | Step.batch e => onDidUpdateCommentThreads env s e
  | Step.request lineNumber e => addOrToggleCommentAtLine env s lineNumber e

/-- Freshness of a batch's additions, evaluated after its own removal phase
(so replace-batches remain allowed): no added thread with a non-empty id
still has a live widget then, and no two added threads share a non-empty
id. -/
def BatchAddsFresh (env : Env) (s : ControllerState)
    (e : CommentThreadChangedEvent) : Prop :=
  ∀ uri, editorURI env = some uri →
    ((∀ t ∈ e.added.filter fun t2 => resourceMatches t2 uri,
        t.threadId ≠ "" →
        widgetCount ((e.removed.filter fun t2 => resourceMatches t2 uri).foldl
            (removeOne e.owner) s).commentWidgets e.owner t.threadId = 0) ∧
      (e.added.filter fun t2 => resourceMatches t2 uri).Pairwise
        fun a b => a.threadId = b.threadId → a.threadId = "")

/-- The addition phase keeps the invariant when the added threads are fresh
and mutually distinct on non-empty ids. -/
lemma addFold_inv (env : Env) (o : String) :
    ∀ (ts : List CommentThread) (s : ControllerState),
    widgetInv s.commentWidgets →
    (∀ t ∈ ts, t.threadId ≠ "" →
      widgetCount s.commentWidgets o t.threadId = 0) →
    ts.Pairwise (fun a b => a.threadId = b.threadId → a.threadId = "") →
    widgetInv ((ts.foldl (addOne env o) s).commentWidgets) := by
  intro ts
  induction ts with
  | nil => intro s hinv _ _; exact hinv
  | cons t rest ih =>
      intro s hinv hfresh hpair
      rw [List.foldl_cons]
      rcases hed : editor env with _ | ed
      · have hw := addOne_widgets_none env o s t hed
        apply ih
        · rw [hw]; exact hinv
        · intro t2 hmem htid2
          rw [hw]
          exact hfresh t2 (List.mem_cons_of_mem t hmem) htid2
        · exact hpair.of_cons
      · have hw := addOne_widgets_some env o s t ed hed
        apply ih
        · intro o2 tid2 htid2
          rw [hw, widgetCount_append_one]
          by_cases ho : o = o2
          · by_cases ht : t.threadId = tid2
            · subst ho
              subst ht
              have h0 := hfresh t (List.mem_cons_self t rest) htid2
              simp [widgetMatches, h0]
            · have hinv2 := hinv o2 tid2 htid2
              simp [widgetMatches, ht]
              omega
          · have hinv2 := hinv o2 tid2 htid2
            simp [widgetMatches, ho]
            omega
        · intro t2 hmem htid2
          rw [hw, widgetCount_append_one]
          have hrel := (List.pairwise_cons.mp hpair).1 t2 hmem
          by_cases hq : t.threadId = t2.threadId
          · exact absurd (hq ▸ hrel hq) htid2
          · have h0 := hfresh t2 (List.mem_cons_of_mem t hmem) htid2
            simp [widgetMatches, hq, h0]
        · exact hpair.of_cons

/-- C4 amended: the invariant "at most one WidgetHandle per (owner,
threadId) with non-empty threadId" is preserved by every serializer request
and by every reconciler batch whose additions are fresh (no added thread
whose key still has a live widget after the batch's removals, and no
duplicate non-empty ids among the additions) — the condition the
counterexample shows to be necessary. -/
theorem widget_invariant_preserved (env : Env) (s : ControllerState)
    (step : Step) (hinv : widgetInv s.commentWidgets)
    (hfresh : ∀ e, step = Step.batch e → BatchAddsFresh env s e) :
    widgetInv (runStep env s step).commentWidgets := by
  cases step with
  | request lineNumber e =>
      obtain ⟨hw, -, -, -⟩ := addOrToggle_frame env s lineNumber e
      simp only [runStep]
      rw [hw]
      exact hinv
  | batch e =>
      have hb := hfresh e rfl
      simp only [runStep]
      rcases hu : editorURI env with _ | uri
      · have hid : onDidUpdateCommentThreads env s e = s := by
          rw [onDidUpdateCommentThreads, hu]
        rw [hid]; exact hinv
      · by_cases hg :
          (s.commentInfos.filter fun i => i.owner == e.owner).length = 0
        · have hid : onDidUpdateCommentThreads env s e = s := by
            rw [onDidUpdateCommentThreads, hu]
            simp [hg]
          rw [hid]; exact hinv
        · rw [handler_unfold env s e uri hu hg]
          obtain ⟨hfr, hpair⟩ := hb uri hu
          obtain ⟨hw2, -, -, -⟩ := changeFold_frame e.owner
            (e.changed.filter fun t => resourceMatches t uri)
            ((e.removed.filter fun t => resourceMatches t uri).foldl
              (removeOne e.owner) s)
          apply addFold_inv
          · rw [hw2]
            intro o2 tid2 htid2
            exact (removeFold_count_le e.owner _ s o2 tid2).trans
              (hinv o2 tid2 htid2)
          · intro t hmem htid
            rw [hw2]
            exact hfr t hmem htid
          · exact hpair

theorem widget_invariant_preserved_witness :
    widgetInv exStateReached.commentWidgets ∧
    (∀ e, Step.batch (⟨"o1", [exThread], [], []⟩ : CommentThreadChangedEvent) =
        Step.batch e → BatchAddsFresh exEnv exStateReached e) ∧
    widgetInv (runStep exEnv exStateReached
      (Step.batch ⟨"o1", [exThread], [], []⟩)).commentWidgets := by
  have hinv : widgetInv exStateReached.commentWidgets := by
    intro o tid h
    show widgetCount [] o tid ≤ 1
    simp [widgetCount]
  have hfresh : ∀ e,
      Step.batch (⟨"o1", [exThread], [], []⟩ : CommentThreadChangedEvent) =
        Step.batch e → BatchAddsFresh exEnv exStateReached e := by
    intro e he
    cases he
    intro uri hu
    have huri : uri = exURI := by
      simp [editorURI, editor, exEnv] at hu
      exact hu.symm
    subst huri
    constructor
    · intro t hmem htid
      have ht : t = exThread := by
        simp [resourceMatches, exThread, exURI] at hmem
        exact hmem
      subst ht
      rfl
    · simp [resourceMatches, exThread, exURI]
  exact ⟨hinv, hfresh,
    widget_invariant_preserved exEnv exStateReached _ hinv hfresh⟩

/-! ### C10: everything is inert without a diff editor -/

/-- C10: when the current editor is absent or not a `MonacoDiffEditor`, the
`editor` getter yields `undefined`, and `beginCompute`, `setComments`,
`displayCommentThread` and `addCommentAtLine2` all return the state
unchanged — in particular the widget list, snapshot cache and pending cache
are untouched and no backend call (`getComments`,
`createCommentThreadTemplate`) is logged. -/
theorem frame_no_diff_editor (env : Env) (s : ControllerState)
    (commentInfos : List CommentInfo) (owner : String) (thread : CommentThread)
    (pendingComment : Option String) (lineNumber : Nat) (ownerId : String)
    (h : env.currentEditor = CurrentEditor.absent ∨
      env.currentEditor = CurrentEditor.nonDiff) :
    editor env = none ∧
    beginCompute env s = s ∧
    setComments env s commentInfos = s ∧
    displayCommentThread env s owner thread pendingComment = s ∧
    addCommentAtLine2 env s lineNumber ownerId = s := by
  have hed : editor env = none := by
    rcases h with h | h <;> simp [editor, h]
  have huri : editorURI env = none := by simp [editorURI, hed]
  refine ⟨hed, ?_, ?_, ?_, ?_⟩
  · rw [beginCompute, huri]
  · rw [setComments, hed]
  · rw [displayCommentThread, hed]
  · rw [addCommentAtLine2, huri]

/-- An environment whose editor manager has no current editor at all. -/
def exEnvNoEditor : Env :=
  { currentEditor := CurrentEditor.absent
    matchedCommentAction := fun _ => []
    getComments := fun _ => [] }

theorem frame_no_diff_editor_witness :
    (exEnvNoEditor.currentEditor = CurrentEditor.absent ∨
      exEnvNoEditor.currentEditor = CurrentEditor.nonDiff) ∧
    (editor exEnvNoEditor = none ∧
      beginCompute exEnvNoEditor exStateC8 = exStateC8 ∧
      setComments exEnvNoEditor exStateC8 [] = exStateC8 ∧
      displayCommentThread exEnvNoEditor exStateC8 "o1" exThread none =
        exStateC8 ∧
      addCommentAtLine2 exEnvNoEditor exStateC8 5 "o1" = exStateC8) :=
  ⟨Or.inl rfl,
    frame_no_diff_editor exEnvNoEditor exStateC8 [] "o1" exThread none 5 "o1"
      (Or.inl rfl)⟩

/-! ### C3: delta batches versus the in-flight snapshot fetch -/

/-- Interleaving state for the asynchronous pieces: the controller state
plus whether a `beginCompute` snapshot fetch is still in flight. -/
structure SysState where
  ctrl : ControllerState
  pendingFetch : Option String
deriving Repr, DecidableEq

/-- The synchronous prefix of `beginCompute` (lines 174-178): read the
editor model URI and issue the `getComments` call, which is now in flight.
The source does NOT record the promise in `_computePromise`: no assignment
to that field exists anywhere in the file, so `ctrl.computePromise` stays
as it was. -/
def beginComputeStart (env : Env) (sys : SysState) : SysState :=
  match editorURI env with
  | none => sys
  | some uri =>
      { sys with
          pendingFetch := some uri
          ctrl := { sys.ctrl with fetchLog := sys.ctrl.fetchLog ++ [uri] } }

/-- Resolution of the in-flight fetch: the continuation of `beginCompute`
(line 179) hands the non-null snapshots to `setComments`. -/
def fetchResolve (env : Env) (sys : SysState) : SysState :=
  match sys.pendingFetch with
  | none => sys
  | some uri =>
      { ctrl := setComments env sys.ctrl ((env.getComments uri).filterMap id)
        pendingFetch := none }

/-- Delivery of an `onDidUpdateCommentThreads` batch.  The handler would
`await this._computePromise` when that field is set (lines 84-86) — modelled
as resolving the outstanding fetch first — but since no statement of the
source ever assigns `_computePromise`, the guard can never fire and the
batch is applied against the un-fetched state immediately. -/
def deliverBatch (env : Env) (sys : SysState)
    (e : CommentThreadChangedEvent) : SysState :=
  match sys.ctrl.computePromise with
  | some _ =>
      { fetchResolve env sys with
          ctrl := onDidUpdateCommentThreads env (fetchResolve env sys).ctrl e }
  | none => { sys with ctrl := onDidUpdateCommentThreads env sys.ctrl e }

/-- C3 is violated by the code: `_computePromise` is declared (line 38) and
awaited (lines 84-86) but never assigned, so its guard is dead.  Concretely:
after `beginComputeStart`, the fetch for the active resource is still in
flight and `computePromise` is still `undefined`; a batch delivered at that
moment is evaluated against the stale empty snapshot list and dropped by the
unknown-owner guard (no widget ever appears), while delivering the same
batch after the fetch settles — the order the claim mandates — produces the
widget.  The batch was therefore applied without awaiting the in-flight
fetch, and the outcome differs. -/
theorem computePromise_never_awaited :
    (beginComputeStart exEnv
      { ctrl := initialState, pendingFetch := none }).pendingFetch =
        some exURI ∧
    (beginComputeStart exEnv
      { ctrl := initialState, pendingFetch := none }).ctrl.computePromise =
        none ∧
    (deliverBatch exEnv
        (beginComputeStart exEnv { ctrl := initialState, pendingFetch := none })
        ⟨"o1", [exThread], [], []⟩).ctrl.commentWidgets = [] ∧
    (deliverBatch exEnv
        (fetchResolve exEnv (beginComputeStart exEnv
          { ctrl := initialState, pendingFetch := none }))
        ⟨"o1", [exThread], [], []⟩).ctrl.commentWidgets.length = 1 :=
  ⟨rfl, rfl, rfl, rfl⟩

end TheiaComments
